import Mathlib

/-!
Verification of the email-triage cycle engine
(`scripts/jmap/triage_cycle.py`) via a shallow embedding in Lean 4.

The Python source works on strings, dictionaries and an embedded SQL
store.  Strings are modelled as Lean `String`s (lists of characters),
with explicit ASCII models of `str.strip`, `str.lower`, `str.split`,
`str.splitlines` and word-boundary regex search.  The SQL tables are
modelled as Lean lists of rows, and the remote mail store and the LLM
provider as oracle functions supplied by the environment.
-/

namespace Triage
/-- ASCII model of Python's default whitespace set for `str.strip`. -/
def pyIsSpace (c : Char) : Bool :=
  c = ' ' || c = '\t' || c = '\n' || c = '\r' || c = '\x0b' || c = '\x0c'

/-- Model of `str.strip()` on a character list. -/
def pyStripChars (cs : List Char) : List Char :=
  ((cs.dropWhile pyIsSpace).reverse.dropWhile pyIsSpace).reverse

/-- Model of `str.rstrip()` on a character list. -/
def pyRstripChars (cs : List Char) : List Char :=
  (cs.reverse.dropWhile pyIsSpace).reverse

/-- Model of `str.strip()`. -/
def pyStrip (s : String) : String := ⟨pyStripChars s.data⟩

/-- Model of `str.rstrip()`. -/
def pyRstrip (s : String) : String := ⟨pyRstripChars s.data⟩

/-- ASCII model of `str.lower` on one character. -/
def pyLowerChar (c : Char) : Char :=
  if 'A' ≤ c ∧ c ≤ 'Z' then Char.ofNat (c.toNat + 32) else c

/-- Model of `str.lower()`. -/
def pyLower (s : String) : String := ⟨s.data.map pyLowerChar⟩

/-- Index of the last element satisfying `p` (bottom-up scans, Python `rfind`). -/
def lastIdxP {α : Type} (p : α → Bool) : List α → Option Nat
  | [] => none
  | x :: xs =>
    match lastIdxP p xs with
    | some i => some (i + 1)
    | none => if p x then some 0 else none

/-- Index of the last occurrence of character `c` (Python `str.rfind`). -/
def lastIdxOf (cs : List Char) (c : Char) : Option Nat :=
  lastIdxP (fun x => x = c) cs

/-- Prefix test on character lists (`str.startswith`). -/
def listStarts : List Char → List Char → Bool
  | [], _ => true
  | _ :: _, [] => false
  | p :: ps, c :: cs => p = c && listStarts ps cs

/-- Model of `str.startswith`. -/
def pyStarts (pre s : String) : Bool := listStarts pre.data s.data

/-- Suffix test on character lists (`str.endswith`). -/
def listEnds (suf cs : List Char) : Bool := listStarts suf.reverse cs.reverse

/-- Model of `str.endswith`. -/
def pyEnds (suf s : String) : Bool := listEnds suf.data s.data

/-- Substring containment, `pat in text` in Python. -/
def listContains (text pat : List Char) : Bool :=
  match text with
  | [] => pat.isEmpty
  | _ :: rest => listStarts pat text || listContains rest pat

/-- Model of the Python expression `pat in text` on strings. -/
def pyContains (text pat : String) : Bool := listContains text.data pat.data

/-- Model of `text.split(sep)` for a single-character separator. -/
def splitOnChar (sep : Char) : List Char → List (List Char)
  | [] => [[]]
  | c :: rest =>
    match splitOnChar sep rest with
    | [] => [[]]
    | h :: t => if c = sep then [] :: h :: t else (c :: h) :: t

/-- Model of `str.split(",")`. -/
def pySplitComma (s : String) : List String :=
  (splitOnChar ',' s.data).map (fun cs => ⟨cs⟩)

/-- Worker for `str.splitlines` (newlines restricted to `\n`, the only
newline used by this code base). -/
def splitlinesGo (cur : List Char) : List Char → List (List Char)
  | [] => [cur.reverse]
  | c :: rest =>
    if c = '\n' then
      match rest with
      | [] => [cur.reverse]
      | _ :: _ => cur.reverse :: splitlinesGo [] rest
    else splitlinesGo (c :: cur) rest

/-- Model of `str.splitlines()`. -/
def pySplitlines (s : String) : List String :=
  if s = "" then [] else (splitlinesGo [] s.data).map (fun cs => ⟨cs⟩)

/-- Model of `"\n".join(lines)`. -/
def joinLines (lines : List String) : String :=
  String.intercalate "\n" lines

/-- Word characters for the regex class `\w` (ASCII model). -/
def isWordChar (c : Char) : Bool :=
  ('a' ≤ c && c ≤ 'z') || ('A' ≤ c && c ≤ 'Z') || ('0' ≤ c && c ≤ '9') || c = '_'

/-- A `\b` boundary holds at an optional neighbouring character. -/
def boundaryAt : Option Char → Bool
  | none => true
  | some c => !isWordChar c

/-- Regex search for `\b<pat>\b` where `pat` starts and ends with word
characters (true of every pattern in the source).  `prev` is the
character just before the current search position. -/
def wordSearchAux (pat : List Char) (prev : Option Char) : List Char → Bool
  | [] => false
  | c :: rest =>
    (listStarts pat (c :: rest) && boundaryAt prev &&
      boundaryAt ((c :: rest).drop pat.length).head?) ||
    wordSearchAux pat (some c) rest

/-- Model of `re.search(r"\b<pat>\b", text)` being non-`None`. -/
def hasWordPattern (text : String) (pat : String) : Bool :=
  wordSearchAux pat.data none text.data

/-- Last-`<` / last-`>` angle-bracket extraction step of
`normalize_vip_address`. -/
def bracketExtract (s : String) : String :=
  match lastIdxOf s.data '<', lastIdxOf s.data '>' with
  | some lt, some gt =>
    if lt < gt then ⟨pyStripChars ((s.data.drop (lt + 1)).take (gt - lt - 1))⟩ else s
  | _, _ => s

/-- The `mailto:` stripping step of `normalize_vip_address`
(`normalized[len("mailto:"):]`, i.e. drop the first 7 characters). -/
def dropMailto (s : String) : String :=
  if pyStarts "mailto:" s then ⟨s.data.drop 7⟩ else s

/-- Embedding of `normalize_vip_address`: strip, lowercase, strip a
leading `mailto:`, then extract an angle-bracketed segment. -/
def normalize_vip_address (value : String) : String :=
  let normalized := pyLower (pyStrip value)
  if normalized = "" then ""
  else bracketExtract (dropMailto normalized)

/-- Embedding of `split_address_values`: skip falsy entries, split each
entry on commas, normalize every piece, and keep the non-empty results
in order (the source performs no deduplication here). -/
def split_address_values (values : List String) : List String :=
  values.flatMap (fun raw =>
    if raw = "" then []
    else ((pySplitComma raw).map normalize_vip_address).filter (fun p => p ≠ ""))

/-- Character map used by `configured_sender_identities`: the source
replaces `;` and `\n` by `,` before splitting. -/
def sepToComma (c : Char) : Char :=
  if c = ';' || c = '\n' then ',' else c

/-- Embedding of `configured_sender_identities` for `mail.sender_emails`
given as a list of strings (a single configured string behaves as the
one-element list: the source applies the same replace-and-split to it).
The result models a Python `set`; only membership is meaningful. -/
def configured_sender_identities (senderEmails : List String) : List String :=
  senderEmails.flatMap (fun value =>
    ((splitOnChar ',' (value.data.map sepToComma)).map
        (fun cs => normalize_vip_address ⟨cs⟩)).filter (fun p => p ≠ ""))

/-- A recipient entry of a JMAP email object (`{"name": …, "email": …}`).
`none` models an absent / `None` field. -/
structure Person where
  name : Option String
  email : Option String
deriving Repr, DecidableEq

/-- A JMAP email object, restricted to the fields the triage cycle
reads.  `bodyText` models the text extracted by `extract_text_content`
(the `bodyValues`/`textBody` plumbing of the mail transport is out of
scope for the core; the classifier consumes only the resulting text). -/
structure Email where
  id : String
  subject : String
  fromList : List Person
  toList : List Person
  ccList : List Person
  bodyText : String
  receivedAt : String
  preview : String
deriving Repr, DecidableEq

/-- Embedding of `extract_text_content` at the level of the core: the
message's plain-text body. -/
def extract_text_content (e : Email) : String := e.bodyText

/-- Embedding of `format_address` from `common.py`. -/
def format_address (p : Person) : String :=
  let name := pyStrip (p.name.getD "")
  let email := pyStrip (p.email.getD "")
  if name ≠ "" ∧ email ≠ "" then name ++ " <" ++ email ++ ">"
  else if email ≠ "" then email else name

/-- Embedding of `email_targets_sender_identity`. -/
def email_targets_sender_identity (e : Email) (senderIdentities : List String)
    (include_cc : Bool) : Bool :=
  if senderIdentities.isEmpty then false
  else
    (e.toList ++ (if include_cc then e.ccList else [])).any (fun person =>
      let recipientEmail := normalize_vip_address ((person.email).getD "")
      recipientEmail ≠ "" && senderIdentities.contains recipientEmail)

/-- The configuration keys consumed by the triage core.
`urgent_keywords` is `triage.urgent_keywords` (raw), `sender_emails` is
`mail.sender_emails`, `signature` is `drafting.signature` (empty string
for an absent key, matching `str(… or "")`), and
`vip_frequency_threshold` is `triage.vip_frequency_threshold` as an
integer (non-integer config values coerce to 0 in the source). -/
structure Config where
  urgent_keywords : List String
  sender_emails : List String
  signature : String
  vip_frequency_threshold : Int
deriving Repr, DecidableEq

/-- The automation settings after `normalize_automation_settings` has
applied the documented defaults (each field models
`automation.get(key, default)`). -/
structure Automation where
  auto_draft : Bool
  draft_actionable_only : Bool
  min_priority_for_draft : String
  auto_archive_priorities : List String
  reply_all : Bool
  use_codex : Bool
  codex_fallback_to_rules : Bool
deriving Repr, DecidableEq

/-- The word-boundary regex phrases of `ACTION_PATTERNS`. -/
def ACTION_PATTERNS : List String :=
  ["please", "can you", "could you", "would you", "need you",
   "action required", "let me know", "follow up", "deadline", "asap", "eod"]

/-- The word-boundary regex phrases of `LOW_SIGNAL_PATTERNS`. -/
def LOW_SIGNAL_PATTERNS : List String :=
  ["newsletter", "digest", "notification", "promo", "marketing"]

/-- `PRIORITY_ORDER` as a partial lookup (`dict.get`). -/
def priority_order : String → Option Nat
  | "low" => some 1
  | "medium" => some 2
  | "high" => some 3
  | _ => none

/-- The sender email used by the classifier and the cycle:
`str(from[0].get("email") or "").strip().lower()`. -/
def senderEmailOf (e : Email) : String :=
  match e.fromList with
  | [] => ""
  | p :: _ => pyLower (pyStrip (p.email.getD ""))

/-- First entry of `from`, `(email.get("from") or [{}])[0]`. -/
def senderPersonOf (e : Email) : Person :=
  match e.fromList with
  | [] => ⟨none, none⟩
  | p :: _ => p

/-- The normalized urgent-keyword list:
`[str(k).strip().lower() for k in … if str(k).strip()]`. -/
def urgentKeywordsOf (config : Config) : List String :=
  (config.urgent_keywords.map (fun k => pyLower (pyStrip k))).filter (fun k => k ≠ "")

/-- The lowercased `f"{subject}\n{body}"` text the classifier scans. -/
def combinedTextOf (e : Email) : String :=
  pyLower (e.subject ++ "\n" ++ extract_text_content e)

/-- Deduplication preserving first occurrence (`dict.fromkeys`). -/
def dedupKeepFirst : List String → List String
  | [] => []
  | x :: xs => x :: (dedupKeepFirst xs).filter (fun y => y ≠ x)

/-- Result tuple of `classify_priority`. -/
structure ClassifyResult where
  priority : String
  actionable : Bool
  reason : String
  summary : String
deriving Repr, DecidableEq

/-- Embedding of `classify_priority`. -/
def classify_priority (e : Email) (config : Config) (vip_senders : List String) :
    ClassifyResult :=
  let urgent_keywords := urgentKeywordsOf config
  let sender_email := senderEmailOf e
  let sender_display := format_address (senderPersonOf e)
  let subject := e.subject
  let combined := combinedTextOf e
  let is_vip := if sender_email ≠ "" then vip_senders.contains sender_email else false
  let sender_identities := configured_sender_identities config.sender_emails
  let sent_to_sender_identity := email_targets_sender_identity e sender_identities true
  let keyword_hits := urgent_keywords.filter (fun kw => kw ≠ "" && pyContains combined kw)
  let actionable :=
    pyContains combined "?" || ACTION_PATTERNS.any (fun pat => hasWordPattern combined pat)
  let low_signal :=
    (sender_email ≠ "" &&
      (pyContains sender_email "noreply" || pyContains sender_email "no-reply" ||
        pyContains sender_email "notification")) ||
    LOW_SIGNAL_PATTERNS.any (fun pat => hasWordPattern combined pat)
  let reasons :=
    (if is_vip then ["VIP sender"] else []) ++
    (if sent_to_sender_identity then ["sent to configured sender address"] else []) ++
    (if ¬keyword_hits.isEmpty then
      ["urgent keywords: " ++ String.intercalate ", " (keyword_hits.take 3)] else []) ++
    (if actionable then ["contains request/question language"] else []) ++
    (if low_signal then ["low-signal/newsletter indicators"] else [])
  let priority :=
    if is_vip || !keyword_hits.isEmpty || sent_to_sender_identity then "high"
    else if actionable && !low_signal then "medium"
    else "low"
  let summary :=
    "From " ++
      (if sender_display ≠ "" then sender_display
       else if sender_email ≠ "" then sender_email else "unknown sender") ++
      " about '" ++ (if subject ≠ "" then subject else "(no subject)") ++ "'"
  let reason :=
    if reasons.isEmpty then "default low-priority classification"
    else String.intercalate "; " (dedupKeepFirst reasons)
  ⟨priority, actionable, reason, summary⟩

/-- The marker list of `_strip_trailing_signature`. -/
def signature_markers : List String :=
  ["regards", "best", "sincerely", "thanks", "thank you", "cheers",
   "best regards", "kind regards", "with appreciation", "sent from",
   "best,", "regards,", "sincerely,", "thanks,", "thank you,", "cheers,"]

/-- The `while idx > 0 and lines[idx - 1].strip()` walk that extends a
matched marker line upward over contiguous non-blank lines. -/
def walkUp (lines : List String) : Nat → Nat
  | 0 => 0
  | i + 1 =>
    if pyStrip ((lines.get? i).getD "") ≠ "" then walkUp lines i else i + 1

/-- Embedding of `_strip_trailing_signature` (leading underscore dropped
for Lean).  The first scan returns at the bottom-most line whose
stripped form is exactly `--`; the second at the bottom-most line whose
stripped, lowercased form starts with a signature marker, extended
upward over contiguous non-blank lines. -/
def strip_trailing_signature (text : String) : String :=
  let lines := pySplitlines text
  if lines.isEmpty then text
  else
    match lastIdxP (fun l => pyStrip l = "--") lines with
    | some i => pyRstrip (joinLines (lines.take i))
    | none =>
      match lastIdxP (fun l =>
          signature_markers.any (fun m => pyStarts m (pyLower (pyStrip l)))) lines with
      | some i => pyRstrip (joinLines (lines.take (walkUp lines i)))
      | none => text

/-- Embedding of `append_drafting_signature`. -/
def append_drafting_signature (reply_text : String) (config : Config) : String :=
  let signature := pyStrip config.signature
  if signature = "" then reply_text
  else
    let normalized_reply := pyRstrip reply_text
    if normalized_reply = "" then signature
    else
      let normalized_signature := pyStrip signature
      let body_without_signature := strip_trailing_signature normalized_reply
      if pyEnds normalized_signature body_without_signature then body_without_signature
      else if body_without_signature = "" then normalized_signature
      else pyRstrip body_without_signature ++ "\n\n" ++ normalized_signature

/-- Embedding of `compose_auto_reply`.  The apostrophes in the templates
are the source's typographic U+2019 characters. -/
def compose_auto_reply (e : Email) (priority : String) (config : Config) : String :=
  let subject := pyStrip (if e.subject ≠ "" then e.subject else "your message")
  let first_line :=
    if priority = "high" then
      "Thanks for your email about \"" ++ subject ++
        "\". I received this and I’m prioritizing it now."
    else if priority = "medium" then
      "Thanks for the note about \"" ++ subject ++
        "\". I received it and will review it shortly."
    else
      "Thanks for sharing this update about \"" ++ subject ++ "\"."
  let second_line :=
    if priority = "high" then "I’ll follow up shortly with a full response."
    else if priority = "medium" then
      "I’ll send a full response after I’ve gone through the details."
    else "I’ve received it and will follow up if anything is needed from my side."
  let body := first_line ++ "\n\n" ++ second_line
  append_drafting_signature body config

/-- A JSON value in the `actionable` slot of a parsed LLM reply: a
boolean, a string, or `null`/absent. -/
inductive PyVal where
  | vNone : PyVal
  | vBool : Bool → PyVal
  | vStr : String → PyVal
deriving Repr, DecidableEq

/-- Python `str(…)` of a `PyVal` (used when `actionable` is not a bool). -/
def PyVal.pyStr : PyVal → String
  | .vNone => "None"
  | .vBool b => if b then "True" else "False"
  | .vStr s => s

/-- The JSON object parsed out of the LLM's reply, restricted to the
five schema fields.  `none` models an absent or `null` field. -/
structure ParsedResult where
  priority : Option String
  actionable : PyVal
  reason : Option String
  summary : Option String
  reply_text : Option String
deriving Repr, DecidableEq

/-- The validated triage result returned by either provider. -/
structure CodexResult where
  priority : String
  actionable : Bool
  reason : String
  summary : String
  reply_text : String
  source : String
deriving Repr, DecidableEq

deriving instance DecidableEq for Except

/-- Embedding of `normalize_codex_triage_result`; a `CodexClientError`
is an `Except.error`. -/
def normalize_codex_triage_result (parsed : ParsedResult) (fallback_reply : String) :
    Except String CodexResult :=
  let priority := pyLower (pyStrip (parsed.priority.getD ""))
  if priority ≠ "high" ∧ priority ≠ "medium" ∧ priority ≠ "low" then
    .error ("Invalid priority from Codex: " ++ priority)
  else
    let actionable :=
      match parsed.actionable with
      | .vBool b => b
      | other =>
        let v := pyLower (pyStrip other.pyStr)
        v = "1" || v = "true" || v = "yes" || v = "y"
    let reason :=
      let r := pyStrip (parsed.reason.getD "")
      if r ≠ "" then r else "Codex triage"
    let summary :=
      let s := pyStrip (parsed.summary.getD "")
      if s ≠ "" then s else "Email triaged by Codex (" ++ priority ++ ")"
    let reply_text :=
      let t := pyStrip (parsed.reply_text.getD "")
      if t ≠ "" then t else fallback_reply
    .ok ⟨priority, actionable, reason, summary, reply_text, "codex"⟩

/-- A row of `triage_state`. -/
structure StateRow where
  email_id : String
  subject : String
  sender : String
  sender_email : String
  received_at : String
  priority : String
  actionable : Bool
  reason : String
  summary : String
  reply_text : String
  drafted : Bool
  draft_id : Option String
  status : String
  error : String
  raw_email : String
  first_seen_at : String
  last_seen_at : String
  updated_at : String
deriving Repr, DecidableEq

/-- A row of `vip_senders`. -/
structure VipRow where
  email : String
  added_at : String
  source : String
  note : Option String
deriving Repr, DecidableEq

/-- A row of `draft_blocked_senders`. -/
structure BlockRow where
  email : String
  added_at : String
  source : String
deriving Repr, DecidableEq

/-- A row of `triage_runs` (the serialized `details_json` is modelled by
keeping the counter fields the source serializes). -/
structure RunRow where
  run_at : String
  mode : String
  emails_seen : Nat
  triaged_count : Nat
  drafted_count : Nat
  skipped_count : Nat
  error_count : Nat
deriving Repr, DecidableEq

/-- The state database: the four tables of `open_state_db`. -/
structure Db where
  triage_state : List StateRow
  vip_senders : List VipRow
  draft_blocked_senders : List BlockRow
  triage_runs : List RunRow
deriving Repr, DecidableEq

/-- Embedding of `get_vip_senders`:
`{str(row["email"]).strip().lower() for row in rows if row["email"]}`.
The list models a set; only membership is meaningful. -/
def get_vip_senders (db : Db) : List String :=
  (db.vip_senders.filter (fun r => r.email ≠ "")).map (fun r => pyLower (pyStrip r.email))

/-- Embedding of `get_draft_blocked_senders`. -/
def get_draft_blocked_senders (db : Db) : List String :=
  (db.draft_blocked_senders.filter (fun r => r.email ≠ "")).map
    (fun r => pyLower (pyStrip r.email))

/-- Embedding of `add_vip_sender`; `now` models `utc_now_iso()`. -/
def add_vip_sender (db : Db) (email : String) (source : String) (now : String) :
    Bool × Db :=
  let normalized := normalize_vip_address email
  if normalized = "" ∨ ¬normalized.data.contains '@' then (false, db)
  else if db.vip_senders.any (fun r => r.email = normalized) then (false, db)
  else (true, { db with vip_senders := db.vip_senders ++ [⟨normalized, now, source, none⟩] })

/-- Embedding of `add_draft_blocked_sender`. -/
def add_draft_blocked_sender (db : Db) (email : String) (source : String) (now : String) :
    Bool × Db :=
  let normalized := normalize_vip_address email
  if normalized = "" ∨ ¬normalized.data.contains '@' then (false, db)
  else if db.draft_blocked_senders.any (fun r => r.email = normalized) then (false, db)
  else
    (true,
      { db with draft_blocked_senders := db.draft_blocked_senders ++ [⟨normalized, now, source⟩] })

/-- Embedding of `count_high_priority_emails_for_sender`. -/
def count_high_priority_emails_for_sender (db : Db) (sender_email : String) : Nat :=
  (db.triage_state.filter
    (fun r => r.sender_email = sender_email ∧ r.priority = "high")).length

/-- Embedding of `get_vip_frequency_threshold`: `max(0, int(raw))`. -/
def get_vip_frequency_threshold (config : Config) : Int :=
  max 0 config.vip_frequency_threshold

/-- The `INSERT … ON CONFLICT(email) DO UPDATE` statement on
`vip_senders`. -/
def vipUpsert (rows : List VipRow) (row : VipRow) : List VipRow :=
  if rows.any (fun r => r.email = row.email) then
    rows.map (fun r => if r.email = row.email then row else r)
  else rows ++ [row]

/-- Embedding of `maybe_auto_promote_vip_from_high_frequency`; returns
the flag together with the updated database. -/
def maybe_auto_promote_vip_from_high_frequency (db : Db) (config : Config)
    (sender_email : String) (previous_priority : Option String)
    (current_priority : String) (now : String) : Bool × Db :=
  let threshold := get_vip_frequency_threshold config
  if threshold ≤ 0 then (false, db)
  else
    let normalized_sender := normalize_vip_address sender_email
    if normalized_sender = "" ∨ ¬normalized_sender.data.contains '@' then (false, db)
    else if current_priority ≠ "high" then (false, db)
    else if pyLower (previous_priority.getD "None") = "high" then (false, db)
    else
      let current_count := count_high_priority_emails_for_sender db normalized_sender
      if (current_count : Int) + 1 < threshold then (false, db)
      else
        let note := "auto-promoted after " ++ toString (current_count + 1) ++
          " high-priority emails"
        if (get_vip_senders db).contains normalized_sender then (false, db)
        else
          (true,
            { db with
              vip_senders :=
                vipUpsert db.vip_senders ⟨normalized_sender, now, "auto_frequency", some note⟩ })

/-- Embedding of `get_state_row`. -/
def get_state_row (db : Db) (email_id : String) : Option StateRow :=
  db.triage_state.find? (fun r => r.email_id = email_id)

/-- Embedding of `upsert_state_row`: insert, or on conflict update every
column except `first_seen_at`. -/
def upsert_state_row (db : Db) (payload : StateRow) : Db :=
  if db.triage_state.any (fun r => r.email_id = payload.email_id) then
    { db with
      triage_state := db.triage_state.map (fun r =>
        if r.email_id = payload.email_id then
          { payload with first_seen_at := r.first_seen_at }
        else r) }
  else { db with triage_state := db.triage_state ++ [payload] }

/-- Embedding of `_is_drafted_to_self` (leading underscore dropped).
The MailStore account email, read from the JMAP session in the source,
is supplied as `accountEmail` (`none` models a session failure or an
account without an email attribute). -/
def is_drafted_to_self (e : Email) (config : Config) (accountEmail : Option String) :
    Bool :=
  if e.toList.isEmpty then false
  else
    let identities := configured_sender_identities config.sender_emails
    let identities :=
      if identities.isEmpty then
        let account_email := pyLower (pyStrip (accountEmail.getD ""))
        if account_email ≠ "" ∧ account_email.data.contains '@' then [account_email]
        else []
      else identities
    if identities.isEmpty then false
    else email_targets_sender_identity e identities false

/-- Embedding of `should_create_draft`. -/
def should_create_draft (apply_mode : Bool) (automation : Automation)
    (blocked_sender_emails : List String) (priority : String) (actionable : Bool)
    (has_existing_draft : Bool) (sender_email : String) (e : Email)
    (accountEmail : Option String) (config : Config) : Bool :=
  if ¬apply_mode then false
  else if ¬automation.auto_draft then false
  else if sender_email ≠ "" ∧ blocked_sender_emails.contains sender_email then false
  else if has_existing_draft then false
  else if ¬is_drafted_to_self e config accountEmail then false
  else
    let min_priority := pyLower (pyStrip automation.min_priority_for_draft)
    let threshold := (priority_order min_priority).getD 3
    let current := (priority_order priority).getD 1
    if current < threshold then false
    else if automation.draft_actionable_only ∧ ¬actionable then false
    else true

/-- Embedding of `should_archive_priority`. -/
def should_archive_priority (apply_mode : Bool) (automation : Automation)
    (priority : String) : Bool :=
  if ¬apply_mode then false
  else (automation.auto_archive_priorities.map pyLower).contains (pyLower priority)

/-- External-call events, recorded at each invocation site so that
"never invokes" properties are statable. -/
inductive Event where
  | classifyRules : String → Event
  | codexCall : String → Event
  | createDraft : String → Event
  | moveArchive : String → Event
deriving Repr, DecidableEq

/-- The environment of one cycle: flags, configuration, and oracles for
the LLM provider and the MailStore.  `codex` is `none` when no Codex
client was built; `mailMove` and `mailDraft` return `Except.error` to
model a raised exception, and `mailDraft` returns the created draft id.
`now` models `utc_now_iso()` (constant within the cycle). -/
structure Env where
  config : Config
  automation : Automation
  apply_mode : Bool
  reprocess : Bool
  codex : Option (Email → Except String ParsedResult)
  mailMove : String → Except String Unit
  mailDraft : Email → String → Bool → Except String String
  accountEmail : Option String
  now : String

/-- The `(priority, actionable, reason, summary, reply_text, source)`
tuple produced by `apply_codex_intelligence`. -/
structure TriageOutcome where
  priority : String
  actionable : Bool
  reason : String
  summary : String
  reply_text : String
  source : String
deriving Repr, DecidableEq

/-- Embedding of `apply_codex_intelligence`.  The provider call
(`codex_client.triage_email`) is the oracle composed with
`normalize_codex_triage_result`; any failure falls back to the rules
when `codex_fallback_to_rules` is on and otherwise propagates. -/
def apply_codex_intelligence (env : Env) (e : Email) (rule : ClassifyResult)
    (rule_reply : String) : Except String TriageOutcome :=
  match env.codex with
  | none =>
    .ok ⟨rule.priority, rule.actionable, "[rules] " ++ rule.reason, rule.summary,
      append_drafting_signature rule_reply env.config, "rules"⟩
  | some oracle =>
    let attempt : Except String CodexResult :=
      match oracle e with
      | .error msg => .error msg
      | .ok parsed => normalize_codex_triage_result parsed rule_reply
    match attempt with
    | .ok result =>
      .ok ⟨result.priority, result.actionable, "[codex] " ++ result.reason, result.summary,
        append_drafting_signature result.reply_text env.config, "codex"⟩
    | .error msg =>
      if env.automation.codex_fallback_to_rules then
        .ok ⟨rule.priority, rule.actionable,
          "[rules-fallback] " ++ rule.reason ++ "; codex_error=" ++ msg, rule.summary,
          append_drafting_signature rule_reply env.config, "rules_fallback"⟩
      else .error msg

/-- A per-message entry of the cycle summary.  Entries are
heterogeneous dictionaries in the source; fields absent from the
"skipped" entry are `none`. -/
structure EmailEntry where
  email_id : String
  priority : String
  actionable : Option Bool
  status : String
  draft_id : Option String
  reason : Option String
  source : Option String
  sender_email : Option String
  auto_promoted_vip : Option Bool
deriving Repr, DecidableEq

/-- The cycle summary. -/
structure Summary where
  run_at : String
  apply_mode : Bool
  emails_seen : Nat
  triaged_count : Nat
  archived_count : Nat
  drafted_count : Nat
  skipped_count : Nat
  error_count : Nat
  emails : List EmailEntry
deriving Repr, DecidableEq

/-- Model of `json.dumps(email)` for the `raw_email` debug column (the
exact serialization is irrelevant to every claim; any injective-enough
representation suffices). -/
def rawEmailRepr (e : Email) : String := reprStr e

/-- The per-message body of the `for email in emails` loop of
`process_one_cycle`.  Mutation of the running summary becomes explicit
record update; external calls are recorded as events; an uncaught
exception (Codex failure without fallback) is `Except.error` and aborts
the cycle. -/
def processEmail (env : Env) (vip_senders blocked_sender_emails : List String)
    (db : Db) (s : Summary) (e : Email) : Except String (Db × Summary × List Event) :=
  let email_id := e.id
  if email_id = "" then
    .ok (db, { s with error_count := s.error_count + 1 }, [])
  else
    let now := env.now
    let existing := get_state_row db email_id
    let existing_draft_id :=
      match existing with
      | some r => match r.draft_id with
        | some d => if d ≠ "" then some d else none
        | none => none
      | none => none
    let has_existing_draft := existing_draft_id.isSome
    if has_existing_draft ∧ ¬env.reprocess then
      let db' :=
        { db with
          triage_state := db.triage_state.map (fun r =>
            if r.email_id = email_id then
              { r with last_seen_at := now, updated_at := now }
            else r) }
      let entry : EmailEntry :=
        { email_id := email_id
          status := "skipped"
          reason := some "already has draft"
          draft_id := (existing.map (fun r => r.draft_id)).getD none
          priority := (existing.map (fun r => r.priority)).getD "unknown"
          actionable := none, source := none, sender_email := none,
          auto_promoted_vip := none }
      .ok (db',
        { s with
          skipped_count := s.skipped_count + 1
          emails := s.emails ++ [entry] }, [])
    else
      let rule := classify_priority e env.config vip_senders
      let rule_reply := compose_auto_reply e rule.priority env.config
      let codexEvents :=
        match env.codex with
        | none => [Event.classifyRules email_id]
        | some _ => [Event.classifyRules email_id, Event.codexCall email_id]
      match apply_codex_intelligence env e rule rule_reply with
      | .error msg => .error msg
      | .ok outcome =>
        let sender_email := senderEmailOf e
        let promoted := maybe_auto_promote_vip_from_high_frequency db env.config
          sender_email (existing.map (fun r => r.priority)) outcome.priority now
        let auto_promoted_vip := promoted.1
        let db₁ := promoted.2
        let draft_id₀ :=
          if existing_draft_id.isSome ∧ ¬env.reprocess then existing_draft_id else none
        let acted :
            String × Option String × String × Nat × Nat × Nat × List Event :=
          if should_archive_priority env.apply_mode env.automation outcome.priority then
            match env.mailMove email_id with
            | .ok _ => ("archived", draft_id₀, "", 1, 0, 0, [Event.moveArchive email_id])
            | .error exc => ("error", draft_id₀, exc, 0, 0, 1, [Event.moveArchive email_id])
          else if should_create_draft env.apply_mode env.automation blocked_sender_emails
              outcome.priority outcome.actionable
              (existing_draft_id.isSome ∧ ¬env.reprocess) sender_email e
              env.accountEmail env.config then
            match env.mailDraft e outcome.reply_text env.automation.reply_all with
            | .ok d => ("drafted", some d, "", 0, 1, 0, [Event.createDraft email_id])
            | .error exc =>
              ("error",
                (if existing_draft_id.isSome ∧ draft_id₀ = none then existing_draft_id
                 else draft_id₀),
                exc, 0, 0, 1, [Event.createDraft email_id])
          else ("triaged", draft_id₀, "", 0, 0, 0, [])
        let status := acted.1
        let draft_id := acted.2.1
        let error_text := acted.2.2.1
        let payload : StateRow :=
          { email_id := email_id
            subject := e.subject
            sender := format_address (senderPersonOf e)
            sender_email := sender_email
            received_at := e.receivedAt
            priority := outcome.priority
            actionable := outcome.actionable
            reason := outcome.reason
            summary := outcome.summary
            reply_text := outcome.reply_text
            drafted := (draft_id.getD "") ≠ ""
            draft_id := draft_id
            status := status
            error := error_text
            raw_email := rawEmailRepr e
            first_seen_at := (existing.map (fun r => r.first_seen_at)).getD now
            last_seen_at := now
            updated_at := now }
        let db₂ := upsert_state_row db₁ payload
        let entry : EmailEntry :=
          { email_id := email_id
            priority := outcome.priority
            actionable := some outcome.actionable
            status := status
            draft_id := draft_id
            reason := some outcome.reason
            source := some outcome.source
            sender_email := some sender_email
            auto_promoted_vip := some auto_promoted_vip }
        .ok (db₂,
          { s with
            archived_count := s.archived_count + acted.2.2.2.1
            drafted_count := s.drafted_count + acted.2.2.2.2.1
            error_count := s.error_count + acted.2.2.2.2.2.1
            triaged_count := s.triaged_count + (if status ≠ "error" then 1 else 0)
            emails := s.emails ++ [entry] },
          codexEvents ++ acted.2.2.2.2.2.2)

/-- The fold of `processEmail` over the fetched emails. -/
def runEmails (env : Env) (vips blocked : List String) :
    List Email → Db → Summary → Except String (Db × Summary × List Event)
  | [], db, s => .ok (db, s, [])
  | e :: rest, db, s =>
    match processEmail env vips blocked db s e with
    | .error msg => .error msg
    | .ok (db', s', evs) =>
      match runEmails env vips blocked rest db' s' with
      | .error msg => .error msg
      | .ok (db'', s'', evs') => .ok (db'', s'', evs ++ evs')

/-- Embedding of `record_run`. -/
def record_run (db : Db) (s : Summary) (apply_mode : Bool) : Db :=
  { db with
    triage_runs := db.triage_runs ++
      [⟨s.run_at, if apply_mode then "apply" else "dry-run", s.emails_seen,
        s.triaged_count, s.drafted_count, s.skipped_count, s.error_count⟩] }

/-- Embedding of `process_one_cycle` from the point where the unread
emails have been fetched (the mailbox listing and query are MailStore
plumbing; `emails` is the query result). -/
def process_one_cycle (env : Env) (db : Db) (emails : List Email) :
    Except String (Db × Summary × List Event) :=
  let init : Summary :=
    { run_at := env.now, apply_mode := env.apply_mode, emails_seen := emails.length,
      triaged_count := 0, archived_count := 0, drafted_count := 0,
      skipped_count := 0, error_count := 0, emails := [] }
  let vips := get_vip_senders db
  let blocked := get_draft_blocked_senders db
  match runEmails env vips blocked emails db init with
  | .error msg => .error msg
  | .ok (db', s, evs) => .ok (record_run db' s env.apply_mode, s, evs)

/-- Spec reading of `split_list` for claim C9: split each element on
comma, semicolon and newline, normalize, and deduplicate preserving
first-seen order. -/
def split_address_values_claim_spec (values : List String) : List String :=
  dedupKeepFirst
    ((values.flatMap (fun raw =>
      (splitOnChar ',' (raw.data.map sepToComma)).map
        (fun cs => normalize_vip_address ⟨cs⟩))).filter (fun p => p ≠ ""))

/-- What `split_address_values` actually does (amended C9): split each
element on commas only, normalize each piece, keep the non-empty
results in first-to-last order, without deduplication. -/
def split_address_values_amended_spec (values : List String) : List String :=
  ((values.flatMap pySplitComma).map normalize_vip_address).filter (fun p => p ≠ "")

/-- The empty state database. -/
def emptyDb : Db := ⟨[], [], [], []⟩

/-- Spec reading of the LLM validator for claim C4: priority must be
exactly one of the three values, and blank reason/summary/reply default
to the rules baseline (rule reason, rule summary, fallback reply). -/
def normalize_codex_claim_spec (parsed : ParsedResult) (fallback_reply : String)
    (rule_reason rule_summary : String) : Except String CodexResult :=
  let priority := parsed.priority.getD ""
  if priority = "high" ∨ priority = "medium" ∨ priority = "low" then
    let actionable :=
      match parsed.actionable with
      | .vBool b => b
      | other =>
        let v := pyLower (pyStrip other.pyStr)
        v = "1" || v = "true" || v = "yes" || v = "y"
    .ok
      { priority := priority
        actionable := actionable
        reason := if pyStrip (parsed.reason.getD "") = "" then rule_reason
          else pyStrip (parsed.reason.getD "")
        summary := if pyStrip (parsed.summary.getD "") = "" then rule_summary
          else pyStrip (parsed.summary.getD "")
        reply_text := if pyStrip (parsed.reply_text.getD "") = "" then fallback_reply
          else pyStrip (parsed.reply_text.getD "")
        source := "codex" }
  else .error ("Invalid priority from Codex: " ++ priority)

/-- What the validator actually does (amended C4): the stringified,
stripped, lowercased priority must be one of the three values;
actionable is coerced as claimed; a blank reason defaults to
`"Codex triage"`, a blank summary to `"Email triaged by Codex (<p>)"`,
and a blank reply to the fallback reply. -/
def normalize_codex_amended_spec (parsed : ParsedResult) (fallback_reply : String) :
    Except String CodexResult :=
  let priority := pyLower (pyStrip (parsed.priority.getD ""))
  if priority = "high" ∨ priority = "medium" ∨ priority = "low" then
    let actionable :=
      match parsed.actionable with
      | .vBool b => b
      | other => ["1", "true", "yes", "y"].contains (pyLower (pyStrip other.pyStr))
    .ok
      { priority := priority
        actionable := actionable
        reason := if pyStrip (parsed.reason.getD "") = "" then "Codex triage"
          else pyStrip (parsed.reason.getD "")
        summary := if pyStrip (parsed.summary.getD "") = "" then
            "Email triaged by Codex (" ++ priority ++ ")"
          else pyStrip (parsed.summary.getD "")
        reply_text := if pyStrip (parsed.reply_text.getD "") = "" then fallback_reply
          else pyStrip (parsed.reply_text.getD "")
        source := "codex" }
  else .error ("Invalid priority from Codex: " ++ priority)

/-- Spec reading of VIP auto-promotion for claim C3: whenever `T ≥ 1`,
the new priority is high and the stored one was not, promotion happens
exactly when `count + 1 ≥ T`. -/
def maybe_auto_promote_claim_spec (db : Db) (config : Config) (sender_email : String)
    (previous_priority : Option String) (current_priority : String) (now : String) :
    Bool × Db :=
  let T := get_vip_frequency_threshold config
  let ns := normalize_vip_address sender_email
  let n := count_high_priority_emails_for_sender db ns + 1
  if 1 ≤ T ∧ current_priority = "high" ∧ previous_priority ≠ some "high" ∧ T ≤ (n : Int) then
    (true,
      { db with
        vip_senders := vipUpsert db.vip_senders
          ⟨ns, now, "auto_frequency",
            some ("auto-promoted after " ++ toString n ++ " high-priority emails")⟩ })
  else (false, db)

/-- Spec reading of the rule classifier's priority ladder for claim C2. -/
def classify_priority_claim_spec (e : Email) (config : Config) (vips : List String) :
    String :=
  let combined := combinedTextOf e
  let sender_email := senderEmailOf e
  if vips.contains sender_email
      || email_targets_sender_identity e
        (configured_sender_identities config.sender_emails) true
      || (urgentKeywordsOf config).any (fun kw => pyContains combined kw) then "high"
  else if (pyContains combined "?"
        || ACTION_PATTERNS.any (fun pat => hasWordPattern combined pat))
      && !((sender_email ≠ "" &&
            (pyContains sender_email "noreply" || pyContains sender_email "no-reply" ||
              pyContains sender_email "notification")) ||
          LOW_SIGNAL_PATTERNS.any (fun pat => hasWordPattern combined pat)) then "medium"
  else "low"

/-- The total order `low < medium < high` of the claim (only applied to
the three valid priority strings). -/
def claimPriorityRank : String → Nat
  | "low" => 1
  | "medium" => 2
  | "high" => 3
  | _ => 0

/-- Spec reading of the strict self-addressed check of claim C1: the
`to` recipients (cc excluded) include a configured sender identity,
with the MailStore account email as the single fallback identity and a
fail-closed default. -/
def drafts_to_self_claim_spec (e : Email) (config : Config)
    (accountEmail : Option String) : Bool :=
  let ids := configured_sender_identities config.sender_emails
  let ids :=
    if ids.isEmpty then
      let a := pyLower (pyStrip (accountEmail.getD ""))
      if a ≠ "" ∧ a.data.contains '@' then [a] else []
    else ids
  email_targets_sender_identity e ids false

/-- The conjunction of claim C1's seven conditions. -/
def should_create_draft_claim_rhs (apply_mode : Bool) (automation : Automation)
    (blocked_sender_emails : List String) (priority : String) (actionable : Bool)
    (has_existing_draft : Bool) (sender_email : String) (e : Email)
    (accountEmail : Option String) (config : Config) : Prop :=
  apply_mode = true ∧
  automation.auto_draft = true ∧
  blocked_sender_emails.contains sender_email = false ∧
  has_existing_draft = false ∧
  drafts_to_self_claim_spec e config accountEmail = true ∧
  (priority_order (pyLower (pyStrip automation.min_priority_for_draft))).getD 3 ≤
    claimPriorityRank priority ∧
  (automation.draft_actionable_only = true → actionable = true)

/-- Environment used by the C5 and C6 witnesses: apply mode, no Codex
client, failing MailStore oracles (never reached). -/
def envW : Env :=
  ⟨⟨[], [], "", 0⟩, ⟨true, true, "high", ["low", "medium"], true, true, true⟩,
    true, false, none, fun _ => .error "network", fun _ _ _ => .error "network",
    none, "t1"⟩

/-- State row used by the C5 witness: an already-drafted message. -/
def rowW : StateRow :=
  ⟨"m1", "subj", "Boss <boss@x.com>", "boss@x.com", "t0", "high", true, "r", "sum",
    "reply", true, some "d-42", "drafted", "", "raw", "t0", "t0", "t0"⟩

/-- Summary state used by the C5 witness. -/
def sumW : Summary := ⟨"t1", true, 1, 0, 0, 0, 0, 0, []⟩

/-- A character list is lowered when lowercasing fixes every element. -/
def LoweredL (cs : List Char) : Prop := ∀ c ∈ cs, pyLowerChar c = c

/-! ### Theorems -/

/-- Claim C10: for every input whose normalized form is empty or lacks
an `@`, `add_vip_sender` and `add_draft_blocked_sender` return `false`
and leave both tables (indeed the whole database) unchanged. -/
theorem claim_C10_invalid_add_rejected (db : Db) (email source now : String)
    (h : normalize_vip_address email = "" ∨
      ¬(normalize_vip_address email).data.contains '@') :
    add_vip_sender db email source now = (false, db) ∧
    add_draft_blocked_sender db email source now = (false, db) := by
  constructor
  · simp only [add_vip_sender]
    rw [if_pos h]
  · simp only [add_draft_blocked_sender]
    rw [if_pos h]

/-- Witness for C10 at the concrete input `"not-an-address"`. -/
theorem claim_C10_witness :
    (normalize_vip_address "not-an-address" = "" ∨
      ¬(normalize_vip_address "not-an-address").data.contains '@') ∧
    (add_vip_sender emptyDb "not-an-address" "manual" "t0" = (false, emptyDb) ∧
      add_draft_blocked_sender emptyDb "not-an-address" "manual" "t0" = (false, emptyDb)) :=
  ⟨by decide, claim_C10_invalid_add_rejected emptyDb "not-an-address" "manual" "t0" (by decide)⟩

/-- Claim C7 (code bug): with `drafting.signature` configured, the
composed fallback reply is NOT the priority template followed by a
blank line and the signature — `_strip_trailing_signature` treats the
template's opening "Thanks for your email about …" line as a signature
marker and deletes the whole body, so only the signature survives. -/
theorem claim_C7_signature_strips_template_body :
    compose_auto_reply ⟨"m1", "Project update", [], [], [], "", "", ""⟩ "high"
        ⟨[], [], "John Doe", 0⟩ = "John Doe" ∧
    compose_auto_reply ⟨"m1", "Project update", [], [], [], "", "", ""⟩ "high"
        ⟨[], [], "John Doe", 0⟩ ≠
      "Thanks for your email about \"Project update\". I received this and I’m prioritizing it now.\n\nI’ll follow up shortly with a full response.\n\nJohn Doe" := by
  decide

/-- Claim C9 counterexample: the splitter does not split on semicolons
(nor deduplicate), so it differs from the spec's `split_list` on
`["a@x.com;a@x.com"]`. -/
theorem claim_C9_counterexample :
    split_address_values ["a@x.com;a@x.com"] = ["a@x.com;a@x.com"] ∧
    split_address_values_claim_spec ["a@x.com;a@x.com"] = ["a@x.com"] ∧
    split_address_values ["a@x.com;a@x.com"] ≠
      split_address_values_claim_spec ["a@x.com;a@x.com"] := by
  decide

/-- Claim C9 (amended): `split_address_values` splits each element on
commas only, normalizes each piece and keeps the non-empty results in
order, without deduplicating. -/
theorem claim_C9_split_amended (values : List String) :
    split_address_values values = split_address_values_amended_spec values := by
  induction values with
  | nil => rfl
  | cons raw rest ih =>
    simp only [split_address_values, split_address_values_amended_spec,
      List.flatMap_cons, List.map_append, List.filter_append] at *
    by_cases hr : raw = ""
    · subst hr
      simpa using ih
    · simp only [if_neg hr]
      rw [ih]

/-- Claim C4 counterexample: the validator accepts `" HIGH "` (it
strips and lowercases the priority before the check, so the rejection
is not of everything that is "not exactly one of" the three values),
and a blank reason defaults to the fixed string `"Codex triage"`, not
to the rule reason. -/
theorem claim_C4_counterexample :
    normalize_codex_triage_result ⟨some " HIGH ", .vBool true, some "", some "x", some "y"⟩
        "fb" =
      .ok ⟨"high", true, "Codex triage", "x", "y", "codex"⟩ ∧
    normalize_codex_claim_spec ⟨some " HIGH ", .vBool true, some "", some "x", some "y"⟩
        "fb" "VIP sender" "rule summary" =
      .error "Invalid priority from Codex:  HIGH " ∧
    normalize_codex_triage_result ⟨some "high", .vBool true, some "", some "x", some "y"⟩
        "fb" ≠
      normalize_codex_claim_spec ⟨some "high", .vBool true, some "", some "x", some "y"⟩
        "fb" "VIP sender" "rule summary" := by
  decide

/-- Claim C4 (amended): the validator agrees everywhere with the
amended spec reading. -/
theorem claim_C4_normalize_amended (parsed : ParsedResult) (fallback_reply : String) :
    normalize_codex_triage_result parsed fallback_reply =
      normalize_codex_amended_spec parsed fallback_reply := by
  simp only [normalize_codex_triage_result, normalize_codex_amended_spec]
  set p := pyLower (pyStrip (parsed.priority.getD "")) with hp
  by_cases h1 : p = "high" <;> by_cases h2 : p = "medium" <;> by_cases h3 : p = "low" <;>
    simp_all <;>
    cases parsed.actionable <;>
    simp_all [PyVal.pyStr, List.contains, Bool.or_assoc]

/-- Claim C3 counterexample: a sender already present in the VIP set is
never promoted — the function returns `false` and leaves the VIP table
untouched even though `T ≥ 1`, the new priority is high, the stored one
was medium and `count + 1 ≥ T`, where the claim demands an upsert and
`auto_promoted_vip = true`. -/
theorem claim_C3_counterexample :
    maybe_auto_promote_vip_from_high_frequency
        ⟨[], [⟨"boss@x.com", "t0", "config", none⟩], [], []⟩ ⟨[], [], "", 1⟩
        "boss@x.com" (some "medium") "high" "t1" =
      (false, ⟨[], [⟨"boss@x.com", "t0", "config", none⟩], [], []⟩) ∧
    (maybe_auto_promote_claim_spec
        ⟨[], [⟨"boss@x.com", "t0", "config", none⟩], [], []⟩ ⟨[], [], "", 1⟩
        "boss@x.com" (some "medium") "high" "t1").1 = true ∧
    maybe_auto_promote_vip_from_high_frequency
        ⟨[], [⟨"boss@x.com", "t0", "config", none⟩], [], []⟩ ⟨[], [], "", 1⟩
        "boss@x.com" (some "medium") "high" "t1" ≠
      maybe_auto_promote_claim_spec
        ⟨[], [⟨"boss@x.com", "t0", "config", none⟩], [], []⟩ ⟨[], [], "", 1⟩
        "boss@x.com" (some "medium") "high" "t1" := by
  decide

/-- Claim C3 (amended): promotion additionally requires the normalized
sender to be non-empty, to contain `@`, and to be absent from the
current VIP set (so the upsert's update arm is effectively dead); in
every other case the database is returned unchanged with `false`. -/
theorem claim_C3_auto_promote_amended (db : Db) (config : Config) (sender_email : String)
    (previous_priority : Option String) (current_priority : String) (now : String) :
    maybe_auto_promote_vip_from_high_frequency db config sender_email
        previous_priority current_priority now =
      (let T := get_vip_frequency_threshold config
       let ns := normalize_vip_address sender_email
       let n := count_high_priority_emails_for_sender db ns + 1
       if 1 ≤ T ∧ ns ≠ "" ∧ ns.data.contains '@' ∧ current_priority = "high" ∧
          pyLower (previous_priority.getD "None") ≠ "high" ∧ T ≤ (n : Int) ∧
          ¬(get_vip_senders db).contains ns then
         (true,
           { db with
             vip_senders := vipUpsert db.vip_senders
               ⟨ns, now, "auto_frequency",
                 some ("auto-promoted after " ++ toString n ++ " high-priority emails")⟩ })
       else (false, db)) := by
  simp only [maybe_auto_promote_vip_from_high_frequency]
  split_ifs with h1 h2 h3 h4 h5 h6 h7 <;>
    first
      | rfl
      | (exfalso; omega)
      | (exfalso; tauto)
      | (simp_all; omega)

/-- The empty-filter / any duality used to line the classifier's
`keyword_hits` list up with the claim's existential reading. -/
theorem isEmpty_filter_eq_not_any {α : Type} (l : List α) (p : α → Bool) :
    (l.filter p).isEmpty = !l.any p := by
  induction l with
  | nil => rfl
  | cons a l ih => by_cases h : p a <;> simp [List.filter_cons, h, ih]

/-- Claim C2: on every message, configuration and VIP set (with the
degenerate empty address absent from the VIP set, as `get_vip_senders`
guarantees), the classifier's priority follows the claimed ladder —
high on VIP / identity-target / urgent-keyword hits, else medium when
actionable and not low-signal, else low — and its actionability flag is
exactly "contains `?` or matches a whole-word action pattern". -/
theorem claim_C2_classify_priority (e : Email) (config : Config) (vips : List String)
    (hv : vips.contains "" = false) :
    (classify_priority e config vips).priority = classify_priority_claim_spec e config vips ∧
    (classify_priority e config vips).actionable =
      (pyContains (combinedTextOf e) "?"
        || ACTION_PATTERNS.any (fun pat => hasWordPattern (combinedTextOf e) pat)) := by
  have hvip : (if senderEmailOf e ≠ "" then vips.contains (senderEmailOf e) else false) =
      vips.contains (senderEmailOf e) := by
    by_cases hs : senderEmailOf e = ""
    · rw [hs, if_neg (by simp), hv]
    · simp [hs]
  have hfil : (urgentKeywordsOf config).filter
        (fun kw => kw ≠ "" && pyContains (combinedTextOf e) kw) =
      (urgentKeywordsOf config).filter (fun kw => pyContains (combinedTextOf e) kw) := by
    apply List.filter_congr
    intro kw hkw
    have : kw ≠ "" := by
      have := List.of_mem_filter hkw
      simpa using this
    simp [this]
  constructor
  · simp only [classify_priority, classify_priority_claim_spec, hvip, hfil,
      isEmpty_filter_eq_not_any]
    by_cases h1 : vips.contains (senderEmailOf e) <;>
      by_cases h2 : (urgentKeywordsOf config).any
        (fun kw => pyContains (combinedTextOf e) kw) <;>
      by_cases h3 : email_targets_sender_identity e
        (configured_sender_identities config.sender_emails) true <;>
      simp [h1, h2, h3]
  · simp only [classify_priority]

/-- Witness for C2 on the identity-targeted digest scenario. -/
theorem claim_C2_witness :
    (([] : List String).contains "" = false) ∧
    ((classify_priority
        ⟨"m1", "Weekly digest",
          [⟨some "Updates", some "noreply@updates.example.com"⟩],
          [⟨some "Me", some "me@example.com"⟩],
          [⟨some "Teammate", some "teammate@example.com"⟩], "", "", "FYI"⟩
        ⟨[], ["me@example.com", "me+alias@example.com"], "", 0⟩ []).priority =
      classify_priority_claim_spec
        ⟨"m1", "Weekly digest",
          [⟨some "Updates", some "noreply@updates.example.com"⟩],
          [⟨some "Me", some "me@example.com"⟩],
          [⟨some "Teammate", some "teammate@example.com"⟩], "", "", "FYI"⟩
        ⟨[], ["me@example.com", "me+alias@example.com"], "", 0⟩ [] ∧
     (classify_priority
        ⟨"m1", "Weekly digest",
          [⟨some "Updates", some "noreply@updates.example.com"⟩],
          [⟨some "Me", some "me@example.com"⟩],
          [⟨some "Teammate", some "teammate@example.com"⟩], "", "", "FYI"⟩
        ⟨[], ["me@example.com", "me+alias@example.com"], "", 0⟩ []).actionable =
      (pyContains (combinedTextOf
          ⟨"m1", "Weekly digest",
            [⟨some "Updates", some "noreply@updates.example.com"⟩],
            [⟨some "Me", some "me@example.com"⟩],
            [⟨some "Teammate", some "teammate@example.com"⟩], "", "", "FYI"⟩) "?"
        || ACTION_PATTERNS.any (fun pat => hasWordPattern (combinedTextOf
            ⟨"m1", "Weekly digest",
              [⟨some "Updates", some "noreply@updates.example.com"⟩],
              [⟨some "Me", some "me@example.com"⟩],
              [⟨some "Teammate", some "teammate@example.com"⟩], "", "", "FYI"⟩) pat))) :=
  ⟨by decide, claim_C2_classify_priority _ _ _ (by decide)⟩

/-- The code's self-addressed check coincides with the claim's reading
(the code's early return on an empty `to` list is an optimization). -/
theorem drafts_self_eq (e : Email) (config : Config) (accountEmail : Option String) :
    is_drafted_to_self e config accountEmail = drafts_to_self_claim_spec e config accountEmail := by
  simp only [is_drafted_to_self, drafts_to_self_claim_spec, email_targets_sender_identity]
  by_cases ht : e.toList.isEmpty <;>
    by_cases hi : (configured_sender_identities config.sender_emails).isEmpty <;>
    simp_all [List.isEmpty_iff]

/-- Claim C1: `should_create_draft` is true iff all seven conditions of
the claim hold.  The two hypotheses record facts the cycle guarantees:
the draft-block set never contains the empty address
(`get_draft_blocked_senders` filters falsy emails), and the priority is
one of the three valid values (enforced by the classifier and the LLM
validator). -/
theorem claim_C1_should_create_draft (apply_mode : Bool) (automation : Automation)
    (blocked_sender_emails : List String) (priority : String) (actionable : Bool)
    (has_existing_draft : Bool) (sender_email : String) (e : Email)
    (accountEmail : Option String) (config : Config)
    (hb : blocked_sender_emails.contains "" = false)
    (hp : priority = "low" ∨ priority = "medium" ∨ priority = "high") :
    should_create_draft apply_mode automation blocked_sender_emails priority actionable
        has_existing_draft sender_email e accountEmail config = true ↔
      should_create_draft_claim_rhs apply_mode automation blocked_sender_emails priority
        actionable has_existing_draft sender_email e accountEmail config := by
  have hblock : ¬(sender_email ≠ "" ∧ blocked_sender_emails.contains sender_email = true) ↔
      blocked_sender_emails.contains sender_email = false := by
    constructor
    · intro h
      by_cases hs : sender_email = ""
      · rw [hs]; exact hb
      · cases hc : blocked_sender_emails.contains sender_email
        · rfl
        · exact absurd ⟨hs, hc⟩ h
    · intro h hc
      rw [hc.2] at h
      cases h
  have hrank : (priority_order priority).getD 1 = claimPriorityRank priority := by
    rcases hp with rfl | rfl | rfl
    · rfl
    · rfl
    · rfl
  simp only [should_create_draft, should_create_draft_claim_rhs, drafts_self_eq, hrank]
  split_ifs with h1 h2 h3 h4 h5 h6 h7 <;> simp_all <;>
    first
      | omega
      | (by_cases hs : sender_email = "" <;> simp_all)

/-- Witness for C1: a high-priority actionable message addressed to the
configured identity, in apply mode with an empty draft-block set. -/
theorem claim_C1_witness :
    (([] : List String).contains "" = false) ∧
    (("high" : String) = "low" ∨ ("high" : String) = "medium" ∨
      ("high" : String) = "high") ∧
    (should_create_draft true ⟨true, true, "high", ["low", "medium"], true, true, true⟩
        [] "high" true false "boss@x.com"
        ⟨"m1", "subj", [⟨some "Boss", some "boss@x.com"⟩],
          [⟨some "Me", some "me@example.com"⟩], [], "", "", ""⟩
        none ⟨[], ["me@example.com"], "", 0⟩ = true ↔
      should_create_draft_claim_rhs true ⟨true, true, "high", ["low", "medium"], true, true, true⟩
        [] "high" true false "boss@x.com"
        ⟨"m1", "subj", [⟨some "Boss", some "boss@x.com"⟩],
          [⟨some "Me", some "me@example.com"⟩], [], "", "", ""⟩
        none ⟨[], ["me@example.com"], "", 0⟩) :=
  ⟨by decide, by decide,
    claim_C1_should_create_draft true ⟨true, true, "high", ["low", "medium"], true, true, true⟩
      [] "high" true false "boss@x.com"
      ⟨"m1", "subj", [⟨some "Boss", some "boss@x.com"⟩],
        [⟨some "Me", some "me@example.com"⟩], [], "", "", ""⟩
      none ⟨[], ["me@example.com"], "", 0⟩ (by decide) (by decide)⟩

/-- Claim C5: a message whose stored row carries a non-empty
`draft_id`, processed with `reprocess = false`, is handled by touching
only that row's `last_seen_at`/`updated_at`, appending exactly one
summary entry with status `"skipped"` and the existing draft id,
incrementing only `skipped_count` — and with an empty event trace, so
neither the rule classifier, nor the LLM, nor any MailStore draft or
move call runs for it. -/
theorem claim_C5_skip_branch (env : Env) (vips blocked : List String) (db : Db)
    (s : Summary) (e : Email) (r : StateRow) (d : String)
    (hid : e.id ≠ "") (hrep : env.reprocess = false)
    (hrow : get_state_row db e.id = some r) (hdid : r.draft_id = some d) (hd : d ≠ "") :
    processEmail env vips blocked db s e =
      .ok
        ({ db with
            triage_state := db.triage_state.map (fun row =>
              if row.email_id = e.id then
                { row with last_seen_at := env.now, updated_at := env.now }
              else row) },
          { s with
            skipped_count := s.skipped_count + 1
            emails := s.emails ++
              [{ email_id := e.id, priority := r.priority, actionable := none,
                 status := "skipped", draft_id := some d,
                 reason := some "already has draft", source := none,
                 sender_email := none, auto_promoted_vip := none }] },
          ([] : List Event)) := by
  simp only [processEmail, hrow, hdid, hrep, if_neg hid, if_pos hd]
  simp [hdid]

/-- Witness for C5 on a concrete already-drafted message. -/
theorem claim_C5_witness :
    ("m1" : String) ≠ "" ∧ envW.reprocess = false ∧
    get_state_row ⟨[rowW], [], [], []⟩ "m1" = some rowW ∧
    rowW.draft_id = some "d-42" ∧ ("d-42" : String) ≠ "" ∧
    processEmail envW [] [] ⟨[rowW], [], [], []⟩ sumW
        ⟨"m1", "subj", [⟨some "Boss", some "boss@x.com"⟩], [], [], "", "", ""⟩ =
      .ok
        ({ triage_state := [rowW].map (fun row =>
              if row.email_id = "m1" then
                { row with last_seen_at := envW.now, updated_at := envW.now }
              else row),
            vip_senders := [], draft_blocked_senders := [], triage_runs := [] },
          { sumW with
            skipped_count := sumW.skipped_count + 1
            emails := sumW.emails ++
              [{ email_id := "m1", priority := rowW.priority, actionable := none,
                 status := "skipped", draft_id := some "d-42",
                 reason := some "already has draft", source := none,
                 sender_email := none, auto_promoted_vip := none }] },
          ([] : List Event)) :=
  ⟨by decide, by decide, by decide, by decide, by decide,
    claim_C5_skip_branch envW [] [] ⟨[rowW], [], [], []⟩ sumW
      ⟨"m1", "subj", [⟨some "Boss", some "boss@x.com"⟩], [], [], "", "", ""⟩ rowW "d-42"
      (by decide) (by decide) (by decide) (by decide) (by decide)⟩

/-- Per-message counter bookkeeping: each successfully processed
message adds exactly one to `triaged + skipped + error`, adds at most
as much to `archived + drafted` as to `triaged`, and leaves
`emails_seen` alone. -/
theorem processEmail_step_counts (env : Env) (vips blocked : List String) (db : Db)
    (s : Summary) (e : Email) (db' : Db) (s' : Summary) (evs : List Event)
    (h : processEmail env vips blocked db s e = .ok (db', s', evs)) :
    s'.triaged_count + s'.skipped_count + s'.error_count =
      s.triaged_count + s.skipped_count + s.error_count + 1 ∧
    s'.archived_count + s'.drafted_count + s.triaged_count ≤
      s.archived_count + s.drafted_count + s'.triaged_count ∧
    s'.emails_seen = s.emails_seen := by
  simp only [processEmail] at h
  repeat' split at h
  all_goals simp only [Except.ok.injEq, Prod.mk.injEq, reduceCtorEq] at h
  all_goals
    obtain ⟨-, h2, -⟩ := h
    subst h2
    simp_all
    try omega

/-- Counter bookkeeping over the cycle's email fold. -/
theorem runEmails_counts (env : Env) (vips blocked : List String) :
    ∀ (emails : List Email) (db : Db) (s : Summary) (db' : Db) (s' : Summary)
      (evs : List Event),
      runEmails env vips blocked emails db s = .ok (db', s', evs) →
      s'.triaged_count + s'.skipped_count + s'.error_count =
        s.triaged_count + s.skipped_count + s.error_count + emails.length ∧
      s'.archived_count + s'.drafted_count + s.triaged_count ≤
        s.archived_count + s.drafted_count + s'.triaged_count ∧
      s'.emails_seen = s.emails_seen := by
  intro emails
  induction emails with
  | nil =>
    intro db s db' s' evs h
    simp only [runEmails, Except.ok.injEq, Prod.mk.injEq] at h
    obtain ⟨-, rfl, -⟩ := h
    simp
  | cons e rest ih =>
    intro db s db' s' evs h
    simp only [runEmails] at h
    split at h
    · cases h
    · rename_i step hstep
      split at h
      · cases h
      · rename_i tail htail
        simp only [Except.ok.injEq, Prod.mk.injEq] at h
        obtain ⟨rfl, rfl, -⟩ := h
        have h1 := processEmail_step_counts env vips blocked db s e _ _ _ hstep
        have h2 := ih _ _ _ _ _ htail
        simp only [List.length_cons]
        omega

/-- Claim C6: every completed cycle's summary satisfies
`triaged + skipped + error ≤ emails_seen` and
`archived + drafted ≤ triaged`. -/
theorem claim_C6_counters (env : Env) (db : Db) (emails : List Email) (db' : Db)
    (s : Summary) (evs : List Event)
    (h : process_one_cycle env db emails = .ok (db', s, evs)) :
    s.triaged_count + s.skipped_count + s.error_count ≤ s.emails_seen ∧
    s.archived_count + s.drafted_count ≤ s.triaged_count := by
  simp only [process_one_cycle] at h
  split at h
  · cases h
  · rename_i tuple heq
    simp only [Except.ok.injEq, Prod.mk.injEq] at h
    obtain ⟨-, rfl, -⟩ := h
    have := runEmails_counts env (get_vip_senders db) (get_draft_blocked_senders db)
      emails db _ _ _ _ heq
    simp at this
    omega

/-- Character order on `Char` coincides with the order of code points. -/
theorem charLe_iff_toNat (a b : Char) : a ≤ b ↔ a.toNat ≤ b.toNat := Iff.rfl

/-- A scalar value below the surrogate range survives the
`Char.ofNat` / `Char.toNat` round trip. -/
theorem toNat_ofNat_valid (n : Nat) (h : n < 0xd800) : (Char.ofNat n).toNat = n := by
  simp [Char.ofNat, Char.toNat, Nat.isValidChar, h, Char.ofNatAux, UInt32.toNat,
    BitVec.toNat_ofNatLt]

/-- Lowercasing a character twice equals lowercasing it once. -/
theorem pyLowerChar_idem (c : Char) : pyLowerChar (pyLowerChar c) = pyLowerChar c := by
  unfold pyLowerChar
  by_cases h : 'A' ≤ c ∧ c ≤ 'Z'
  · rw [if_pos h, if_neg]
    intro hcon
    have h1 : c.toNat ≤ 90 := (charLe_iff_toNat c 'Z').mp h.2
    have h2 : (Char.ofNat (c.toNat + 32)).toNat = c.toNat + 32 :=
      toNat_ofNat_valid _ (by omega)
    have h4 : (Char.ofNat (c.toNat + 32)).toNat ≤ 90 :=
      (charLe_iff_toNat _ 'Z').mp hcon.2
    have h5 : (65 : Nat) ≤ c.toNat := (charLe_iff_toNat 'A' c).mp h.1
    omega
  · rw [if_neg h, if_neg h]

/-- The output of character-wise lowercasing is lowered. -/
theorem lowered_of_map (cs : List Char) : LoweredL (cs.map pyLowerChar) := by
  intro c hc
  obtain ⟨d, -, rfl⟩ := List.mem_map.mp hc
  exact pyLowerChar_idem d

/-- Loweredness passes to element-wise subsets. -/
theorem LoweredL.mono {cs cs' : List Char} (h : LoweredL cs) (hsub : ∀ c ∈ cs', c ∈ cs) :
    LoweredL cs' := fun c hc => h c (hsub c hc)

/-- Lowercasing is the identity on a lowered list. -/
theorem map_lower_of_lowered {cs : List Char} (h : LoweredL cs) :
    cs.map pyLowerChar = cs := by
  induction cs with
  | nil => rfl
  | cons c cs ih =>
    simp only [List.map_cons, h c (List.mem_cons_self c cs), List.cons.injEq, true_and]
    exact ih (fun d hd => h d (List.mem_cons_of_mem c hd))

/-- Elements of the stripped list come from the original list. -/
theorem mem_of_mem_pyStripChars {c : Char} {cs : List Char} (h : c ∈ pyStripChars cs) :
    c ∈ cs := by
  unfold pyStripChars at h
  rw [List.mem_reverse] at h
  have h2 := (List.dropWhile_sublist pyIsSpace).subset h
  rw [List.mem_reverse] at h2
  exact (List.dropWhile_sublist pyIsSpace).subset h2

/-- A `none` result of the bottom-up scan means no element satisfies `p`. -/
theorem lastIdxP_eq_none {α : Type} {p : α → Bool} :
    ∀ {cs : List α}, lastIdxP p cs = none → ∀ x ∈ cs, ¬p x := by
  intro cs
  induction cs with
  | nil => intro _ x hx; cases hx
  | cons y ys ih =>
    intro h x hx
    simp only [lastIdxP] at h
    rcases hcase : lastIdxP p ys with - | i
    · rw [hcase] at h
      rcases List.mem_cons.mp hx with rfl | hx
      · intro hp
        rw [if_pos hp] at h
        cases h
      · exact ih hcase x hx
    · rw [hcase] at h
      cases h

/-- No element satisfies `p` → the bottom-up scan returns `none`. -/
theorem lastIdxP_eq_none_of_not {α : Type} {p : α → Bool} :
    ∀ {cs : List α}, (∀ x ∈ cs, ¬p x) → lastIdxP p cs = none := by
  intro cs
  induction cs with
  | nil => intro _; rfl
  | cons y ys ih =>
    intro h
    simp only [lastIdxP, ih (fun x hx => h x (List.mem_cons_of_mem y hx))]
    rw [if_neg (by simpa using h y (List.mem_cons_self y ys))]

/-- Past the index returned by the bottom-up scan, no element
satisfies `p`. -/
theorem lastIdxP_drop {α : Type} {p : α → Bool} :
    ∀ {cs : List α} {i : Nat}, lastIdxP p cs = some i → ∀ x ∈ cs.drop (i + 1), ¬p x := by
  intro cs
  induction cs with
  | nil => intro i h; cases h
  | cons y ys ih =>
    intro i h x hx
    simp only [lastIdxP] at h
    rcases hcase : lastIdxP p ys with - | j
    · rw [hcase] at h
      by_cases hp : p y
      · rw [if_pos hp] at h
        cases h
        exact lastIdxP_eq_none hcase x (by simpa using hx)
      · rw [if_neg hp] at h
        cases h
    · rw [hcase] at h
      cases h
      exact ih hcase x (by simpa using hx)

/-- `bracketExtract` returns its input when the text has no `<`. -/
theorem bext_eq_of_none_lt {s : String} (h : lastIdxOf s.data '<' = none) :
    bracketExtract s = s := by
  unfold bracketExtract
  split
  · rename_i lt gt heq1 heq2
    rw [h] at heq1
    cases heq1
  · rfl

/-- `bracketExtract` returns its input when the text has no `>`. -/
theorem bext_eq_of_none_gt {s : String} (h : lastIdxOf s.data '>' = none) :
    bracketExtract s = s := by
  unfold bracketExtract
  split
  · rename_i lt gt heq1 heq2
    rw [h] at heq2
    cases heq2
  · rfl

/-- `bracketExtract` returns its input when the last `>` precedes the
last `<`. -/
theorem bext_eq_of_not_lt {s : String} {lt gt : Nat}
    (hlt : lastIdxOf s.data '<' = some lt) (hgt : lastIdxOf s.data '>' = some gt)
    (hord : ¬lt < gt) : bracketExtract s = s := by
  unfold bracketExtract
  split
  · rename_i lt' gt' heq1 heq2
    rw [hlt] at heq1
    rw [hgt] at heq2
    cases heq1
    cases heq2
    rw [if_neg hord]
  · rfl

/-- `bracketExtract` extracts and strips the bracketed segment when the
last `<` precedes the last `>`. -/
theorem bext_eq_extract {s : String} {lt gt : Nat}
    (hlt : lastIdxOf s.data '<' = some lt) (hgt : lastIdxOf s.data '>' = some gt)
    (hord : lt < gt) :
    bracketExtract s = ⟨pyStripChars ((s.data.drop (lt + 1)).take (gt - lt - 1))⟩ := by
  unfold bracketExtract
  split
  · rename_i lt' gt' heq1 heq2
    rw [hlt] at heq1
    rw [hgt] at heq2
    cases heq1
    cases heq2
    rw [if_pos hord]
  · rename_i hne
    exact (hne lt gt hlt hgt).elim

/-- The extraction step is idempotent: its output never retains a `<`
before a later `>`. -/
theorem bracketExtract_idem (s : String) :
    bracketExtract (bracketExtract s) = bracketExtract s := by
  rcases hlt : lastIdxOf s.data '<' with - | lt
  · rw [bext_eq_of_none_lt hlt, bext_eq_of_none_lt hlt]
  · rcases hgt : lastIdxOf s.data '>' with - | gt
    · rw [bext_eq_of_none_gt hgt, bext_eq_of_none_gt hgt]
    · by_cases hord : lt < gt
      · rw [bext_eq_extract hlt hgt hord]
        apply bext_eq_of_none_lt
        apply lastIdxP_eq_none_of_not
        intro x hx hpx
        have hxeq : x = '<' := by simpa using hpx
        subst hxeq
        exact lastIdxP_drop hlt '<'
          ((List.take_sublist _ _).subset (mem_of_mem_pyStripChars hx)) (by simp)
      · rw [bext_eq_of_not_lt hlt hgt hord, bext_eq_of_not_lt hlt hgt hord]

/-- `bracketExtract` fixes every output of `normalize_vip_address`. -/
theorem bracketExtract_normalize (v : String) :
    bracketExtract (normalize_vip_address v) = normalize_vip_address v := by
  unfold normalize_vip_address
  by_cases hm : pyLower (pyStrip v) = ""
  · rw [if_pos hm]
    exact bext_eq_of_none_lt rfl
  · rw [if_neg hm]
    exact bracketExtract_idem _

/-- Every output of `normalize_vip_address` is lowercase. -/
theorem normalize_lowered (v : String) : LoweredL (normalize_vip_address v).data := by
  unfold normalize_vip_address
  by_cases hm : pyLower (pyStrip v) = ""
  · rw [if_pos hm]
    intro c hc
    cases hc
  · rw [if_neg hm]
    have hbase : LoweredL (pyLower (pyStrip v)).data := lowered_of_map _
    have hdrop : LoweredL (dropMailto (pyLower (pyStrip v))).data := by
      unfold dropMailto
      split
      · exact hbase.mono (fun c hc => (List.drop_sublist _ _).subset hc)
      · exact hbase
    generalize ht : dropMailto (pyLower (pyStrip v)) = t at hdrop ⊢
    rcases hlt : lastIdxOf t.data '<' with - | lt
    · rw [bext_eq_of_none_lt hlt]
      exact hdrop
    · rcases hgt : lastIdxOf t.data '>' with - | gt
      · rw [bext_eq_of_none_gt hgt]
        exact hdrop
      · by_cases hord : lt < gt
        · rw [bext_eq_extract hlt hgt hord]
          exact hdrop.mono (fun c hc =>
            (List.drop_sublist _ _).subset ((List.take_sublist _ _).subset
              (mem_of_mem_pyStripChars hc)))
        · rw [bext_eq_of_not_lt hlt hgt hord]
          exact hdrop

/-- Claim C8 counterexample: normalization is not idempotent — an
address wrapped as `x <mailto:a@b>` normalizes to `mailto:a@b`, which
renormalizes to `a@b`. -/
theorem claim_C8_counterexample :
    normalize_vip_address "x <mailto:a@b>" = "mailto:a@b" ∧
    normalize_vip_address (normalize_vip_address "x <mailto:a@b>") = "a@b" ∧
    normalize_vip_address (normalize_vip_address "x <mailto:a@b>") ≠
      normalize_vip_address "x <mailto:a@b>" := by
  decide

/-- Claim C8 (amended): normalization is idempotent on every input
whose normalized form is already whitespace-stripped and does not begin
with `mailto:`.  (A normalized form can retain a `mailto:` prefix that
was nested inside angle brackets, or leading whitespace uncovered by
prefix stripping; renormalizing then changes it, as the counterexample
shows.) -/
theorem claim_C8_normalize_idem_amended (a : String)
    (h1 : pyStrip (normalize_vip_address a) = normalize_vip_address a)
    (h2 : pyStarts "mailto:" (normalize_vip_address a) = false) :
    normalize_vip_address (normalize_vip_address a) = normalize_vip_address a := by
  have hlow : pyLower (normalize_vip_address a) = normalize_vip_address a := by
    show String.mk ((normalize_vip_address a).data.map pyLowerChar) = _
    rw [map_lower_of_lowered (normalize_lowered a)]
  conv_lhs => rw [normalize_vip_address]
  rw [h1, hlow]
  by_cases hre : normalize_vip_address a = ""
  · rw [if_pos hre, hre]
  · rw [if_neg hre]
    have hdm : dropMailto (normalize_vip_address a) = normalize_vip_address a := by
      unfold dropMailto
      rw [if_neg (by simp [h2])]
    rw [hdm]
    exact bracketExtract_normalize a

/-- Witness for the amended C8 at a bracketed mixed-case address. -/
theorem claim_C8_witness :
    pyStrip (normalize_vip_address "  John Doe <A@B.com>  ") =
      normalize_vip_address "  John Doe <A@B.com>  " ∧
    pyStarts "mailto:" (normalize_vip_address "  John Doe <A@B.com>  ") = false ∧
    normalize_vip_address (normalize_vip_address "  John Doe <A@B.com>  ") =
      normalize_vip_address "  John Doe <A@B.com>  " :=
  ⟨by decide, by decide,
    claim_C8_normalize_idem_amended "  John Doe <A@B.com>  " (by decide) (by decide)⟩

/-- Witness for C6: the empty cycle in the environment `envW`. -/
theorem claim_C6_witness :
    process_one_cycle envW emptyDb [] =
      .ok
        (record_run emptyDb ⟨"t1", true, 0, 0, 0, 0, 0, 0, []⟩ true,
          ⟨"t1", true, 0, 0, 0, 0, 0, 0, []⟩, ([] : List Event)) ∧
    ((0 : Nat) + 0 + 0 ≤ 0 ∧ (0 : Nat) + 0 ≤ 0) :=
  ⟨by decide,
    claim_C6_counters envW emptyDb []
      (record_run emptyDb ⟨"t1", true, 0, 0, 0, 0, 0, 0, []⟩ true)
      ⟨"t1", true, 0, 0, 0, 0, 0, 0, []⟩ [] (by decide)⟩

end Triage
